import Mathlib

/-!
# Verification of the simple_kv access-control core

A shallow embedding of the security-relevant parts of the `simple_kv`
repository (Python):

* `simple_kv/lib/utils/kv_utils.py` — tenant identifier validation
  (`KvIdentifier.validate`);
* `simple_kv/lib/kv/kv_db.py` — the per-tenant database wrapper
  (`KvDb`): derived names, the SQLite authorizer callback
  (`KvDb._authorize`), and the key-value CRUD helpers;
* `simple_kv/lib/kv/kv_mgr.py` — the principal store (`KvUserDb`):
  users, permission grants, sessions (`login`, `vacuum_sessions`,
  `check_sid`, `check_perm`, `register_kv_table_user`);
* `simple_kv/admin.py` — the administrative grant/revoke paths
  (`_set_kv_perms`);
* `simple_kv/web.py` — the caller-layer permission gate
  (`_check_kv_perms`).

SQL tables are modelled as lists of rows; `fetchone` of a keyed lookup
becomes `List.find?`; `INSERT OR REPLACE` on a UNIQUE column set removes
the clashing row and appends; `DELETE ... WHERE` filters.  ISO-8601
timestamps are kept as `String`s ordered lexicographically, exactly the
comparison that SQLite TEXT ordering and Python `str.__lt__` perform on
them; the per-call reads of the wall clock are passed in as explicit
`now` arguments.  Opaque library primitives (bcrypt hashing, token
generation, timestamp arithmetic) are passed in as parameters.
-/

namespace SimpleKv

/-! ## Identifier validation (`kv_utils.py`, `KvIdentifier.validate`) -/

/-- A tenant identifier wrapper, as the Python dataclass `KvIdentifier`
holds its `text` field. -/
structure KvIdentifier where
  text : String
deriving DecidableEq, Repr

/-- One character of the class `[^a-z_]` with `re.IGNORECASE`: `true`
when the character is outside the set that `[a-z_]` matches
case-insensitively.  Per the Python `re` documentation, a Unicode
`[a-z]` under `re.IGNORECASE` matches the 52 ASCII letters and four
additional non-ASCII letters: U+0130 (Latin capital I with dot above),
U+0131 (Latin small dotless i), U+017F (Latin small long s) and U+212A
(Kelvin sign); `_` is case-free. -/
def isBadIdentChar (c : Char) : Bool :=
  !(('a' ≤ c && c ≤ 'z') || ('A' ≤ c && c ≤ 'Z') || c == '_' ||
    c == Char.ofNat 0x0130 || c == Char.ofNat 0x0131 ||
    c == Char.ofNat 0x017F || c == Char.ofNat 0x212A)

/-- `KvIdentifier.validate`: `re.search(r"[^a-z_]", raw, re.IGNORECASE)`
finds a match exactly when some character of `raw` lies outside the
case-insensitive `[a-z_]` class (the ASCII letters, the underscore, and
the four extra letters listed at `isBadIdentChar`); on a match the
Python raises (modelled as `none`), otherwise it returns
`KvIdentifier(raw)`. -/
def KvIdentifier.validate (raw : String) : Option KvIdentifier :=
  if raw.data.any isBadIdentChar then
    none
  else
    some ⟨raw⟩

/-! ## Derived tenant names (`kv_db.py`, `KvDb._real_dbid` / `KvDb.save_name`) -/

/-- `KvDb._real_dbid`: `f"kv_{dbid.text}"`. -/
def KvDb.real_dbid (dbid : KvIdentifier) : String :=
  "kv_" ++ dbid.text

/-- `KvDb.save_name`: `f"kv_{dbid.text}.sqlite"`. -/
def KvDb.save_name (dbid : KvIdentifier) : String :=
  "kv_" ++ dbid.text ++ ".sqlite"

/-! ## The SQLite authorizer (`kv_db.py`, `KvDb._authorize`)

Action codes and return codes carry the numeric values of the C-level
SQLite constants that `sqlite3` re-exports. -/

def SQLITE_OK : Int := 0
def SQLITE_DENY : Int := 1

def SQLITE_CREATE_INDEX : Int := 1
def SQLITE_CREATE_TABLE : Int := 2
def SQLITE_DROP_TABLE : Int := 11
def SQLITE_INSERT : Int := 18
def SQLITE_PRAGMA : Int := 19
def SQLITE_READ : Int := 20
def SQLITE_SELECT : Int := 21
def SQLITE_TRANSACTION : Int := 22
def SQLITE_UPDATE : Int := 23
def SQLITE_ATTACH : Int := 24
def SQLITE_DETACH : Int := 25
def SQLITE_ALTER_TABLE : Int := 26
def SQLITE_FUNCTION : Int := 31

/-- The body of the `match` in `KvDb._authorize`, reached once the
`enable_authorizer` bypass test is passed.  The Python `match` takes the
first case whose pattern (and in-body guard) applies and falls through
to the final `SQLITE_DENY` otherwise; the two cases whose bodies carry
an inner `if` without an `else` (`SQLITE_TRANSACTION`,
`SQLITE_FUNCTION`) fall through to the same `SQLITE_DENY`, and no later
case can match their action codes, so folding the guard into the case
condition is behaviour-preserving. -/
def KvDb.decisionTable (real_dbid : String) (action_code : Int)
    (arg2 arg3 : Option String) : Int :=
  if action_code = SQLITE_CREATE_INDEX then SQLITE_OK
  else if action_code = SQLITE_CREATE_TABLE ∧ arg3 = none then SQLITE_OK
  else if action_code = SQLITE_INSERT ∧ arg3 = none then SQLITE_OK
  else if action_code = SQLITE_READ then SQLITE_OK
  else if action_code = SQLITE_SELECT ∧ arg2 = none ∧ arg3 = none then SQLITE_OK
  else if action_code = SQLITE_TRANSACTION ∧ arg3 = none ∧
      (arg2 = some "BEGIN" ∨ arg2 = some "COMMIT" ∨ arg2 = some "ROLLBACK") then SQLITE_OK
  else if action_code = SQLITE_UPDATE then SQLITE_OK
  else if action_code = SQLITE_ALTER_TABLE ∧ arg2 = some real_dbid then SQLITE_OK
  else if action_code = SQLITE_FUNCTION ∧ arg2 = none ∧ arg3 = some "json_extract" then SQLITE_OK
  else SQLITE_DENY

/-- `KvDb._authorize`: the whole callback, bypass included —
`if not self.enable_authorizer: return SQLITE_OK`, then the decision
table. -/
def KvDb.authorize (enable_authorizer : Bool) (real_dbid : String)
    (action_code : Int) (arg2 arg3 : Option String) : Int :=
  if !enable_authorizer then SQLITE_OK
  else KvDb.decisionTable real_dbid action_code arg2 arg3

/-! ## Construction of a `KvDb` (`kv_db.py`, `KvDb.__init__` / `KvDb.connect`) -/

/-- The mutable attributes of a `KvDb` instance that the authorizer
callback reads. -/
structure KvDbState where
  enable_authorizer : Bool
  dbid : String
  real_dbid : String
deriving DecidableEq, Repr

/-- The two externally distinguishable phases of `KvDb.__init__`.
`duringSchemaInit` is the object state while `super().__init__` runs;
`completed` is the state when `__init__` returns.

Modelled from the spec: `DbWrapper.__init__` (the base class, whose
module `simple_kv/lib/db_wrapper.py` is not in the sources — only its
subclasses and call sites are) opens the file and runs the subclass
`init_schema` on a connection; per the spec this is the tenant-own
schema-initialization step (trusted, internally generated SQL), and it
executes between the two assignments to `enable_authorizer` that
`KvDb.__init__` makes around the `super().__init__` call. -/
structure KvDbConstruction where
  duringSchemaInit : KvDbState
  completed : KvDbState
deriving Repr

/-- `KvDb.__init__`: sets `enable_authorizer = False`, runs
`super().__init__` (the schema-initialization step), then sets
`enable_authorizer = True`.  No other code in the module ever writes
`enable_authorizer` again. -/
def KvDb.construct (dbid : KvIdentifier) : KvDbConstruction :=
  let s0 : KvDbState :=
    { enable_authorizer := false
      dbid := dbid.text
      real_dbid := KvDb.real_dbid dbid }
  { duringSchemaInit := s0
    completed := { s0 with enable_authorizer := true } }

/-- `KvDb.connect`: every connection returned has `self._authorize`
installed via `conn.set_authorizer`, reading the instance state at
call time.  The decision a connection makes for an action is therefore
a function of the instance state and the action tuple. -/
def KvDb.connectionAuthorize (st : KvDbState) (action_code : Int)
    (arg2 arg3 : Option String) : Int :=
  KvDb.authorize st.enable_authorizer st.real_dbid action_code arg2 arg3

/-! ## The key-value table (`kv_db.py`, `_KvDbSelect` / `_KvDbInsert` / `_KvDbDelete`)

The `kv` table has `key TEXT PRIMARY KEY`, so at most one row per key;
a table is a list of rows, queried in order. -/

/-- One row of the `kv` table. -/
structure KvRow where
  key : String
  value : String
deriving DecidableEq, Repr

/-- Result shape of `_KvDbSelect.one`: the `dict(value=..., exists=...)`
the Python returns. -/
structure KvGetResult where
  value : Option String
  found : Bool
deriving DecidableEq, Repr

/-- `_KvDbSelect.one`: `SELECT value FROM kv WHERE key = ?` + `fetchone`;
no row gives `{value: None, exists: False}`, a row gives its value and
`exists: True`. -/
def KvDbSelect.one (kv : List KvRow) (key : String) : KvGetResult :=
  match kv.find? (fun r => r.key == key) with
  | none => { value := none, found := false }
  | some r => { value := some r.value, found := true }

/-- `_KvDbInsert.one`: `INSERT OR REPLACE INTO kv (key, value)`.  On the
`key` PRIMARY KEY, a conflicting row is replaced rather than raising a
uniqueness violation: the old row (if any) goes away and the new row is
stored. -/
def KvDbInsert.one (kv : List KvRow) (key : String) (value : String) : List KvRow :=
  (kv.filter (fun r => !(r.key == key))) ++ [{ key := key, value := value }]

/-- `_KvDbDelete.one`: `DELETE FROM kv WHERE key = ?`. -/
def KvDbDelete.one (kv : List KvRow) (key : String) : List KvRow :=
  kv.filter (fun r => !(r.key == key))

/-! ## The principal store (`kv_mgr.py`, `KvUserDb`)

Timestamps (`expires`, the wall clock) are ISO-8601 `String`s compared
lexicographically — the comparison SQLite applies to TEXT operands in
`expires < ?` and Python applies in `r["expires"] < now`. -/

/-- `KvMgr.GUEST_USER_ID`. -/
def GUEST_USER_ID : Nat := 1

/-- `KvMgr.ADMIN_PERM`. -/
def ADMIN_PERM : String := "admin"

/-- A row of `users`: `id INTEGER PRIMARY KEY, user TEXT UNIQUE, pass
BLOB` (the bcrypt hash kept opaque). -/
structure UserRow where
  id : Nat
  user : String
  passHash : String
deriving DecidableEq, Repr

/-- A row of `users_permissions`: `uid INTEGER, perm TEXT`, UNIQUE on
the pair. -/
structure PermRow where
  uid : Nat
  perm : String
deriving DecidableEq, Repr

/-- A row of `users_sessions`: `uid INTEGER, sid TEXT, expires TEXT`
(nullable), UNIQUE on `(uid, sid)`. -/
structure SessionRow where
  uid : Nat
  sid : String
  expires : Option String
deriving DecidableEq, Repr

/-- The three tables of `auth.sqlite` owned by `KvUserDb`. -/
structure KvUserDbState where
  users : List UserRow
  permissions : List PermRow
  sessions : List SessionRow
deriving DecidableEq, Repr

/-- `KvUserDb.read_perm`: `f"{dbid}_read"`. -/
def KvUserDb.read_perm (dbid : String) : String := dbid ++ "_read"

/-- `KvUserDb.write_perm`: `f"{dbid}_write"`. -/
def KvUserDb.write_perm (dbid : String) : String := dbid ++ "_write"

/-- `KvUserDb.check_perm`: `SELECT 1 FROM users_permissions WHERE uid = ?
AND perm = ?` + `fetchone`, coerced to `bool`. -/
def KvUserDb.check_perm (perms : List PermRow) (uid : Nat) (perm : String) : Bool :=
  (perms.find? (fun r => r.uid == uid && r.perm == perm)).isSome

/-- Result shape of `KvUserDb.check_kv_perms`: the
`dict(read=..., write=...)`. -/
structure KvPermsResult where
  read : Bool
  write : Bool
deriving DecidableEq, Repr

/-- `KvUserDb.check_kv_perms`: checks the two derived permission names
independently. -/
def KvUserDb.check_kv_perms (perms : List PermRow) (uid : Nat) (dbid : String) :
    KvPermsResult :=
  { read := KvUserDb.check_perm perms uid (KvUserDb.read_perm dbid)
    write := KvUserDb.check_perm perms uid (KvUserDb.write_perm dbid) }

/-- `KvUserDb.vacuum_sessions`: `DELETE FROM users_sessions WHERE
expires < ?` with the current timestamp.  SQL three-valued logic keeps
every row whose `expires` is NULL: `NULL < x` is not true. -/
def KvUserDb.vacuum_sessions (now : String) (sessions : List SessionRow) :
    List SessionRow :=
  sessions.filter (fun r =>
    match r.expires with
    | none => true
    | some e => !(decide (e < now)))

/-- `KvUserDb.check_sid`: look the session up by token
(`fetchone` = first matching row); absent row, or a non-NULL `expires`
lexicographically below the current timestamp, yields `None`; otherwise
the owning `uid`. -/
def KvUserDb.check_sid (st : KvUserDbState) (now : String) (sid : String) :
    Option Nat :=
  match st.sessions.find? (fun r => r.sid == sid) with
  | none => none
  | some r =>
    match r.expires with
    | none => some r.uid
    | some e => if e < now then none else some r.uid

/-- The `dict` a successful `KvUserDb.login` returns. -/
structure LoginResult where
  sid : String
  uid : Nat
  username : String
  duration : Option Int
  expires : Option String
deriving DecidableEq, Repr

/-- The `expires` computation of `KvUserDb.login`: `if seconds:` — both
`None` and `0` are falsy, leaving `expires = None`; otherwise
`expires = (now + timedelta(seconds)).isoformat()`, supplied by the
opaque parameter `addSeconds`. -/
def expiresOf (addSeconds : String → Int → String) (now : String)
    (seconds : Option Int) : Option String :=
  match seconds with
  | none => none
  | some s => if s = 0 then none else some (addSeconds now s)

/-- `KvUserDb.login`.  Opaque library calls enter as parameters:
`checkpw raw hash` for `bcrypt.checkpw`, `sid` for the
`secrets.token_hex()` draw, `now` for the wall-clock reads, and
`addSeconds now s` for `now + timedelta(seconds=s)` in ISO form.
Control flow as in the source: unknown user returns `None`; a hash
mismatch returns `None` (the same value); otherwise `expires` is
computed (`if seconds:` — both `None` and `0` are falsy), the session
row is inserted, the expiry sweep runs, and the session dict is
returned. -/
def KvUserDb.login (checkpw : String → String → Bool)
    (addSeconds : String → Int → String) (st : KvUserDbState)
    (username raw_password : String) (sid : String) (now : String)
    (seconds : Option Int) : Option LoginResult × KvUserDbState :=
  match st.users.find? (fun u => u.user == username) with
  | none => (none, st)
  | some u =>
    if !(checkpw raw_password u.passHash) then (none, st)
    else
      (some { sid := sid, uid := u.id, username := username,
              duration := seconds, expires := expiresOf addSeconds now seconds },
       { st with sessions := (KvUserDb.vacuum_sessions now
           (st.sessions ++ [{ uid := u.id, sid := sid,
                              expires := expiresOf addSeconds now seconds }])) })

/-- `INSERT OR REPLACE INTO users_permissions (uid, perm)`: on the
UNIQUE `(uid, perm)` pair the clashing row is replaced — the grant
upsert used by `KvUserDb.register_kv_table_user` and `admin.py`. -/
def insertOrReplacePerm (perms : List PermRow) (uid : Nat) (perm : String) :
    List PermRow :=
  (perms.filter (fun r => !(r.uid == uid && r.perm == perm))) ++
    [{ uid := uid, perm := perm }]

/-- `DELETE FROM users_permissions WHERE uid = ? AND perm = ?`: the
revoke used by `admin.py`. -/
def deletePerm (perms : List PermRow) (uid : Nat) (perm : String) :
    List PermRow :=
  perms.filter (fun r => !(r.uid == uid && r.perm == perm))

/-- `KvUserDb.register_kv_table_user`: upserts `<dbid>_read` when
`read` and `<dbid>_write` when `write`, in that order. -/
def KvUserDb.register_kv_table_user (perms : List PermRow) (dbid : String)
    (uid : Nat) (read write : Bool) : List PermRow :=
  let perms := if read then insertOrReplacePerm perms uid (KvUserDb.read_perm dbid) else perms
  if write then insertOrReplacePerm perms uid (KvUserDb.write_perm dbid) else perms

/-! ## Administrative grant/revoke (`admin.py`, `_set_kv_perms`)

One iteration of the per-table loop, split by branch. -/

/-- `_set_kv_perms`, grant branch, "Enabling read of table": upsert of
`(uid, read_perm(dbid))`. -/
def Admin.enable_read (perms : List PermRow) (uid : Nat) (dbid : String) :
    List PermRow :=
  insertOrReplacePerm perms uid (KvUserDb.read_perm dbid)

/-- `_set_kv_perms`, grant branch, "Enabling write of table": upsert of
`(uid, write_perm(dbid))`. -/
def Admin.enable_write (perms : List PermRow) (uid : Nat) (dbid : String) :
    List PermRow :=
  insertOrReplacePerm perms uid (KvUserDb.write_perm dbid)

/-- `_set_kv_perms`, remove branch, "Disabling read of table": the
DELETE is parameterized with `[uid, mgr.ADMIN_PERM]` — it deletes the
`(uid, "admin")` row, not `(uid, read_perm(dbid))`, even though the
adjacent log line announces disabling read of `dbid`. -/
def Admin.disable_read (perms : List PermRow) (uid : Nat) (dbid : String) :
    List PermRow :=
  deletePerm perms uid ADMIN_PERM

/-- `_set_kv_perms`, remove branch, "Disabling write of table": deletes
`(uid, write_perm(dbid))`. -/
def Admin.disable_write (perms : List PermRow) (uid : Nat) (dbid : String) :
    List PermRow :=
  deletePerm perms uid (KvUserDb.write_perm dbid)

/-! ## The caller-layer permission gate (`web.py`, `_check_kv_perms`) -/

/-- The `perm_type` argument of `_check_kv_perms`:
`Literal["read", "write"]`. -/
inductive PermType where
  | read
  | write
deriving DecidableEq, Repr

/-- `perms[perm_type]`: indexing the `check_kv_perms` dict. -/
def KvPermsResult.get (p : KvPermsResult) : PermType → Bool
  | .read => p.read
  | .write => p.write

/-- `web._check_kv_perms`: grant when the guest user holds the
permission; otherwise require a truthy `sid` (Python: `None` and `""`
are falsy) resolving through `check_sid` to a truthy `uid` (Python:
`None` and `0` are falsy) that holds the permission or holds the admin
permission. -/
def web_check_kv_perms (st : KvUserDbState) (now : String) (dbid : String)
    (perm_type : PermType) (sid : Option String) : Bool :=
  let guest_perms := KvUserDb.check_kv_perms st.permissions GUEST_USER_ID dbid
  if guest_perms.get perm_type then true
  else
    match sid with
    | none => false
    | some s =>
      if s == "" then false
      else
        match KvUserDb.check_sid st now s with
        | none => false
        | some uid =>
          if uid == 0 then false
          else
            let perms := KvUserDb.check_kv_perms st.permissions uid dbid
            if perms.get perm_type then true
            else KvUserDb.check_perm st.permissions uid ADMIN_PERM

/-- The permission name `_check_kv_perms` consults for a given
`perm_type`. -/
def permName (dbid : String) : PermType → String
  | .read => KvUserDb.read_perm dbid
  | .write => KvUserDb.write_perm dbid

/-! ## Spec-side predicates (for refinement claims) -/

/-- The allow-list of claim C1, transcribed row by row from the claim
text: create index (any objects); create table with no secondary
qualifier; insert with no secondary qualifier; read column (any);
top-level select with no objects; transaction control with op among
BEGIN, COMMIT, ROLLBACK (a transaction action carries no secondary
object); update column (any); alter table whose matched object equals
the internal name `kv_<tenant>` of this tenant; function call (a
function action carries no primary object) whose function name is in
the whitelist consisting of `json_extract`. -/
def allowedBySpec (tenant : String) (action_code : Int)
    (arg2 arg3 : Option String) : Prop :=
  action_code = SQLITE_CREATE_INDEX
  ∨ (action_code = SQLITE_CREATE_TABLE ∧ arg3 = none)
  ∨ (action_code = SQLITE_INSERT ∧ arg3 = none)
  ∨ action_code = SQLITE_READ
  ∨ (action_code = SQLITE_SELECT ∧ arg2 = none ∧ arg3 = none)
  ∨ (action_code = SQLITE_TRANSACTION ∧ arg3 = none ∧
      (arg2 = some "BEGIN" ∨ arg2 = some "COMMIT" ∨ arg2 = some "ROLLBACK"))
  ∨ action_code = SQLITE_UPDATE
  ∨ (action_code = SQLITE_ALTER_TABLE ∧ arg2 = some ("kv_" ++ tenant))
  ∨ (action_code = SQLITE_FUNCTION ∧ arg2 = none ∧ arg3 = some "json_extract")

/-! # Theorems -/

/-- Indexing the `check_kv_perms` dict with a `perm_type` key is the
bare permission check on the derived name. -/
theorem KvPermsResult.get_check_kv_perms (perms : List PermRow) (uid : Nat)
    (dbid : String) (pt : PermType) :
    (KvUserDb.check_kv_perms perms uid dbid).get pt
      = KvUserDb.check_perm perms uid (permName dbid pt) := by
  cases pt <;> rfl

/-- A character passes the class test of `KvIdentifier.validate` exactly
when it is an ASCII letter, an underscore, or one of the four non-ASCII
letters that `re.IGNORECASE` folds into `[a-z]`. -/
theorem isBadIdentChar_eq_false_iff (c : Char) :
    isBadIdentChar c = false ↔
      (('a' ≤ c ∧ c ≤ 'z') ∨ ('A' ≤ c ∧ c ≤ 'Z') ∨ c = '_' ∨
        c = Char.ofNat 0x0130 ∨ c = Char.ofNat 0x0131 ∨
        c = Char.ofNat 0x017F ∨ c = Char.ofNat 0x212A) := by
  unfold isBadIdentChar
  rw [Bool.not_eq_false']
  simp only [Bool.or_eq_true, Bool.and_eq_true, decide_eq_true_eq, beq_iff_eq]
  tauto

/-- The whole-string class test of `KvIdentifier.validate`. -/
theorem any_isBadIdentChar_eq_false_iff (raw : String) :
    raw.data.any isBadIdentChar = false ↔
      ∀ c ∈ raw.data, ('a' ≤ c ∧ c ≤ 'z') ∨ ('A' ≤ c ∧ c ≤ 'Z') ∨ c = '_' ∨
        c = Char.ofNat 0x0130 ∨ c = Char.ofNat 0x0131 ∨
        c = Char.ofNat 0x017F ∨ c = Char.ofNat 0x212A := by
  constructor
  · intro h c hc
    refine (isBadIdentChar_eq_false_iff c).mp ?_
    by_contra hb
    have : raw.data.any isBadIdentChar = true :=
      List.any_eq_true.mpr ⟨c, hc, by simpa using hb⟩
    rw [this] at h
    exact Bool.true_eq_false.mp h
  · intro h
    by_contra hb
    have hx : raw.data.any isBadIdentChar = true := by
      cases hx : raw.data.any isBadIdentChar
      · exact absurd hx hb
      · rfl
    rcases List.any_eq_true.mp hx with ⟨c, hc, hbad⟩
    rw [(isBadIdentChar_eq_false_iff c).mpr (h c hc)] at hbad
    exact Bool.false_eq_true.mp hbad

/-- Claim C3, counterexample to the claim as stated, on two inputs the
claim says must fail and the code accepts: the empty string (the search
for `[^a-z_]` finds nothing in it), and the one-character string U+017F
(Latin small long s), which lies outside `[A-Za-z_]` — it is no ASCII
letter and no underscore — yet is folded into `[a-z]` by
`re.IGNORECASE`, so the search does not flag it. -/
theorem C3_counterexample_accepts_outside_class :
    KvIdentifier.validate "" = some ⟨""⟩
    ∧ KvIdentifier.validate (String.mk [Char.ofNat 0x017F])
        = some ⟨String.mk [Char.ofNat 0x017F]⟩
    ∧ ¬(('a' ≤ Char.ofNat 0x017F ∧ Char.ofNat 0x017F ≤ 'z')
        ∨ ('A' ≤ Char.ofNat 0x017F ∧ Char.ofNat 0x017F ≤ 'Z')
        ∨ Char.ofNat 0x017F = '_') := by
  refine ⟨by decide, by decide, by decide⟩

/-- Claim C3 (amended): identifier validation succeeds exactly when
every character of the input is in `[A-Za-z_]` or is one of the four
non-ASCII letters U+0130, U+0131, U+017F, U+212A that `re.IGNORECASE`
folds into `[a-z]` — with no non-emptiness requirement, so the empty
string is accepted; any string containing a character outside that
class (digits, whitespace, path separators, SQL metacharacters) fails;
on success the returned identifier text equals the input, so validation
is idempotent. -/
theorem C3_identifier_validation (raw : String) :
    ((KvIdentifier.validate raw).isSome = true ↔
      ∀ c ∈ raw.data, ('a' ≤ c ∧ c ≤ 'z') ∨ ('A' ≤ c ∧ c ≤ 'Z') ∨ c = '_' ∨
        c = Char.ofNat 0x0130 ∨ c = Char.ofNat 0x0131 ∨
        c = Char.ofNat 0x017F ∨ c = Char.ofNat 0x212A)
    ∧ (∀ c ∈ raw.data,
        ¬(('a' ≤ c ∧ c ≤ 'z') ∨ ('A' ≤ c ∧ c ≤ 'Z') ∨ c = '_' ∨
          c = Char.ofNat 0x0130 ∨ c = Char.ofNat 0x0131 ∨
          c = Char.ofNat 0x017F ∨ c = Char.ofNat 0x212A) →
        KvIdentifier.validate raw = none)
    ∧ (∀ idf : KvIdentifier, KvIdentifier.validate raw = some idf →
        idf.text = raw ∧ KvIdentifier.validate idf.text = KvIdentifier.validate raw) := by
  have hval : (KvIdentifier.validate raw).isSome = !(raw.data.any isBadIdentChar) := by
    unfold KvIdentifier.validate
    cases hx : raw.data.any isBadIdentChar <;> simp [hx]
  refine ⟨?_, ?_, ?_⟩
  · rw [hval, Bool.not_eq_eq_eq_not, Bool.not_true]
    exact any_isBadIdentChar_eq_false_iff raw
  · intro c hc hbad
    cases hv : KvIdentifier.validate raw with
    | none => rfl
    | some idf =>
      have : (KvIdentifier.validate raw).isSome = true := by rw [hv]; rfl
      rw [hval, Bool.not_eq_eq_eq_not, Bool.not_true] at this
      exact absurd ((any_isBadIdentChar_eq_false_iff raw).mp this c hc) hbad
  · intro idf h
    unfold KvIdentifier.validate at h
    by_cases hx : raw.data.any isBadIdentChar = true
    · rw [if_pos hx] at h
      exact absurd h (by simp)
    · rw [if_neg hx] at h
      have hid : idf = ⟨raw⟩ := by
        have := Option.some.inj h
        exact this.symm
      subst hid
      exact ⟨rfl, rfl⟩

/-- Witness for C3 at a concrete input: `"abc"` validates to itself and
re-validating the returned text gives the same result. -/
theorem C3_identifier_validation_witness :
    (⟨"abc"⟩ : KvIdentifier).text = "abc" ∧
    KvIdentifier.validate (⟨"abc"⟩ : KvIdentifier).text = KvIdentifier.validate "abc" :=
  (C3_identifier_validation "abc").2.2 ⟨"abc"⟩ (by decide)

/-- Claim C2, counterexample to the claim as stated: `"A"` and `"a"`
both pass validation and differ only in letter case, yet
`KvDb.save_name` interpolates the identifier text without case folding,
so the two derived file names differ. -/
theorem C2_counterexample_case_sensitive :
    KvIdentifier.validate "A" = some ⟨"A"⟩
    ∧ KvIdentifier.validate "a" = some ⟨"a"⟩
    ∧ KvDb.save_name ⟨"A"⟩ ≠ KvDb.save_name ⟨"a"⟩ := by
  refine ⟨by decide, by decide, ?_⟩
  decide

/-- Claim C2 (amended): the derived physical storage file name is the
fixed prefix `kv_` + the identifier text AS WRITTEN (no case folding) +
the fixed suffix `.sqlite`; for two raw names that pass validation the
derived names coincide exactly when the raw names are equal, so names
differing only in letter case derive distinct files. -/
theorem C2_save_name_derivation (a b : String)
    (ha : (KvIdentifier.validate a).isSome = true)
    (hb : (KvIdentifier.validate b).isSome = true) :
    KvDb.save_name ⟨a⟩ = "kv_" ++ a ++ ".sqlite"
    ∧ (KvDb.save_name ⟨a⟩ = KvDb.save_name ⟨b⟩ ↔ a = b) := by
  refine ⟨rfl, ?_, ?_⟩
  · intro h
    unfold KvDb.save_name at h
    have hd := congrArg String.data h
    simp only [String.data_append] at hd
    have h1 := List.append_cancel_right hd
    have h2 := List.append_cancel_left h1
    exact String.ext h2
  · intro h
    rw [h]

/-- Witness for C2 (amended) at a concrete input. -/
theorem C2_save_name_derivation_witness :
    KvDb.save_name ⟨"ab"⟩ = "kv_" ++ "ab" ++ ".sqlite"
    ∧ (KvDb.save_name ⟨"ab"⟩ = KvDb.save_name ⟨"ab"⟩ ↔ "ab" = "ab") :=
  C2_save_name_derivation "ab" "ab" (by decide) (by decide)

/-- Rows filtered out by key can no longer be found by that key. -/
theorem find?_key_filter_ne (l : List KvRow) (k : String) :
    (l.filter (fun r => !(r.key == k))).find? (fun r => r.key == k) = none := by
  rw [List.find?_eq_none]
  intro r hr
  have h := (List.mem_filter.mp hr).2
  simp only [Bool.not_eq_true', beq_eq_false_iff_ne, ne_eq] at h
  simp only [beq_iff_eq]
  exact h

/-- Claim C9: on the kv table, put then get on the same key returns the
last-written value with `exists = true`; put on an existing key
overwrites (insert-or-replace, last write wins — a second put leaves
exactly the state a single put of the new value would); delete then get
returns `exists = false` with a null value; and delete of an absent key
leaves the table unchanged. -/
theorem C9_kv_crud (kv : List KvRow) (k v v₀ : String) :
    (KvDbSelect.one (KvDbInsert.one kv k v) k = { value := some v, found := true })
    ∧ (KvDbInsert.one (KvDbInsert.one kv k v₀) k v = KvDbInsert.one kv k v)
    ∧ (KvDbSelect.one (KvDbDelete.one kv k) k = { value := none, found := false })
    ∧ ((KvDbSelect.one kv k).found = false → KvDbDelete.one kv k = kv) := by
  refine ⟨?_, ?_, ?_, ?_⟩
  · unfold KvDbSelect.one KvDbInsert.one
    rw [List.find?_append, find?_key_filter_ne, Option.none_or]
    simp [List.find?]
  · unfold KvDbInsert.one
    have hsingle :
        List.filter (fun r => !(r.key == k)) [({ key := k, value := v₀ } : KvRow)] = [] := by
      simp [List.filter]
    have hidem :
        List.filter (fun r => !(r.key == k)) (List.filter (fun r => !(r.key == k)) kv)
          = List.filter (fun r => !(r.key == k)) kv :=
      List.filter_eq_self.mpr (fun a ha => (List.mem_filter.mp ha).2)
    rw [List.filter_append, hsingle, hidem, List.append_nil]
  · unfold KvDbSelect.one KvDbDelete.one
    rw [find?_key_filter_ne]
  · intro h
    unfold KvDbSelect.one at h
    unfold KvDbDelete.one
    cases hf : kv.find? (fun r => r.key == k) with
    | none =>
      rw [List.filter_eq_self]
      intro r hr
      have hnone := List.find?_eq_none.mp hf r hr
      have hb : (r.key == k) = false := by
        cases hbk : (r.key == k)
        · rfl
        · exact absurd hbk hnone
      simp [hb]
    | some r =>
      rw [hf] at h
      exact absurd h (by simp)

/-- Witness for C9 at a concrete input: deleting from the empty table is
a no-op. -/
theorem C9_kv_crud_witness :
    KvDbDelete.one [] "k" = [] :=
  (C9_kv_crud [] "k" "v" "w").2.2.2 (by decide)

/-- Claim C5 (the missing `DbWrapper` base class is modelled from the
spec, see `KvDbConstruction`): the authorizer-bypass state holds only
during the schema-initialization phase of construction; a completed
`KvDb` has `enable_authorizer = true`, and on the state captured by any
subsequently opened connection every action tuple is decided by the
decision table — the unconditional-allow branch is unreachable — while
during schema initialization every action is allowed unconditionally. -/
theorem C5_authorizer_lifecycle (dbid : KvIdentifier) (action_code : Int)
    (arg2 arg3 : Option String) :
    ((KvDb.construct dbid).completed.enable_authorizer = true)
    ∧ ((KvDb.construct dbid).duringSchemaInit.enable_authorizer = false)
    ∧ (KvDb.connectionAuthorize (KvDb.construct dbid).completed action_code arg2 arg3
        = KvDb.decisionTable (KvDb.real_dbid dbid) action_code arg2 arg3)
    ∧ (KvDb.connectionAuthorize (KvDb.construct dbid).duringSchemaInit action_code arg2 arg3
        = SQLITE_OK) :=
  ⟨rfl, rfl, rfl, rfl⟩

set_option maxHeartbeats 1000000 in
/-- Claim C1: with the authorizer enabled and bound to the internal name
`kv_<tenant>`, an action tuple is allowed exactly when it matches the
allow-list of the claim (`allowedBySpec`), and every decision is either
allow or deny. -/
theorem C1_authorizer_decision (tenant : String) (action_code : Int)
    (arg2 arg3 : Option String) :
    (KvDb.authorize true (KvDb.real_dbid ⟨tenant⟩) action_code arg2 arg3 = SQLITE_OK
      ↔ allowedBySpec tenant action_code arg2 arg3)
    ∧ (KvDb.authorize true (KvDb.real_dbid ⟨tenant⟩) action_code arg2 arg3 = SQLITE_OK
      ∨ KvDb.authorize true (KvDb.real_dbid ⟨tenant⟩) action_code arg2 arg3 = SQLITE_DENY) := by
  have hred : KvDb.authorize true (KvDb.real_dbid ⟨tenant⟩) action_code arg2 arg3
      = KvDb.decisionTable ("kv_" ++ tenant) action_code arg2 arg3 := rfl
  rw [hred]
  constructor
  · unfold KvDb.decisionTable allowedBySpec
    constructor
    · intro hOK
      split_ifs at hOK with h1 h2 h3 h4 h5 h6 h7 h8 h9
      · exact Or.inl h1
      · exact Or.inr (Or.inl h2)
      · exact Or.inr (Or.inr (Or.inl h3))
      · exact Or.inr (Or.inr (Or.inr (Or.inl h4)))
      · exact Or.inr (Or.inr (Or.inr (Or.inr (Or.inl h5))))
      · exact Or.inr (Or.inr (Or.inr (Or.inr (Or.inr (Or.inl h6)))))
      · exact Or.inr (Or.inr (Or.inr (Or.inr (Or.inr (Or.inr (Or.inl h7))))))
      · exact Or.inr (Or.inr (Or.inr (Or.inr (Or.inr (Or.inr (Or.inr (Or.inl h8)))))))
      · exact Or.inr (Or.inr (Or.inr (Or.inr (Or.inr (Or.inr (Or.inr (Or.inr h9)))))))
      · exact absurd hOK (by decide)
    · intro hspec
      rcases hspec with h | ⟨h, h3'⟩ | ⟨h, h3'⟩ | h | ⟨h, h2', h3'⟩ |
        ⟨h, h3', hop⟩ | h | ⟨h, h2'⟩ | ⟨h, h2', h3'⟩
      · rw [if_pos h]
      · subst h; subst h3'
        simp [SQLITE_CREATE_INDEX, SQLITE_CREATE_TABLE]
      · subst h; subst h3'
        simp [SQLITE_CREATE_INDEX, SQLITE_CREATE_TABLE, SQLITE_INSERT]
      · subst h
        simp [SQLITE_CREATE_INDEX, SQLITE_CREATE_TABLE, SQLITE_INSERT, SQLITE_READ]
      · subst h; subst h2'; subst h3'
        simp [SQLITE_CREATE_INDEX, SQLITE_CREATE_TABLE, SQLITE_INSERT, SQLITE_READ,
          SQLITE_SELECT]
      · subst h; subst h3'
        rcases hop with hop | hop | hop <;> subst hop <;>
          simp [SQLITE_CREATE_INDEX, SQLITE_CREATE_TABLE, SQLITE_INSERT, SQLITE_READ,
            SQLITE_SELECT, SQLITE_TRANSACTION]
      · subst h
        simp [SQLITE_CREATE_INDEX, SQLITE_CREATE_TABLE, SQLITE_INSERT, SQLITE_READ,
          SQLITE_SELECT, SQLITE_TRANSACTION, SQLITE_UPDATE]
      · subst h; subst h2'
        simp [SQLITE_CREATE_INDEX, SQLITE_CREATE_TABLE, SQLITE_INSERT, SQLITE_READ,
          SQLITE_SELECT, SQLITE_TRANSACTION, SQLITE_UPDATE, SQLITE_ALTER_TABLE]
      · subst h; subst h2'; subst h3'
        simp [SQLITE_CREATE_INDEX, SQLITE_CREATE_TABLE, SQLITE_INSERT, SQLITE_READ,
          SQLITE_SELECT, SQLITE_TRANSACTION, SQLITE_UPDATE, SQLITE_ALTER_TABLE,
          SQLITE_FUNCTION]
  · unfold KvDb.decisionTable
    split_ifs <;> first | exact Or.inl rfl | exact Or.inr rfl

/-- Inversion of a successful `KvUserDb.login`: the matched user row,
the accepted password check, and the exact shape of the returned
session dict and post-state. -/
theorem login_success_state (checkpw : String → String → Bool)
    (addSeconds : String → Int → String) (st : KvUserDbState)
    (username pw sid now : String) (seconds : Option Int)
    (res : LoginResult) (st' : KvUserDbState)
    (h : KvUserDb.login checkpw addSeconds st username pw sid now seconds = (some res, st')) :
    ∃ u, st.users.find? (fun u => u.user == username) = some u
      ∧ checkpw pw u.passHash = true
      ∧ res = { sid := sid, uid := u.id, username := username, duration := seconds,
                expires := expiresOf addSeconds now seconds }
      ∧ st' = { st with sessions := (KvUserDb.vacuum_sessions now
            (st.sessions ++ [{ uid := u.id, sid := sid,
                               expires := expiresOf addSeconds now seconds }])) } := by
  unfold KvUserDb.login at h
  split at h
  next hf => exact absurd h (by simp)
  next u hf =>
    split at h
    next hc => exact absurd h (by simp)
    next hc =>
      have hcp : checkpw pw u.passHash = true := by
        cases hcc : checkpw pw u.passHash
        · rw [hcc] at hc
          exact absurd rfl hc
        · rfl
      obtain ⟨h1, h2⟩ := Prod.mk.injEq .. |>.mp h
      exact ⟨u, hf, hcp, (Option.some.inj h1).symm, h2.symm⟩

/-- Inversion of a successful `KvUserDb.check_sid`: there is a stored
session with that token, owned by the returned uid, whose expiry is
absent or not in the past. -/
theorem check_sid_some_mem (st : KvUserDbState) (now sid : String) (uid : Nat)
    (h : KvUserDb.check_sid st now sid = some uid) :
    ∃ r ∈ st.sessions, r.sid = sid ∧ r.uid = uid ∧
      (r.expires = none ∨ ∃ e, r.expires = some e ∧ ¬ e < now) := by
  unfold KvUserDb.check_sid at h
  split at h
  next hf => exact absurd h (by simp)
  next r hf =>
    have hmem := List.mem_of_find?_eq_some hf
    have hsid : r.sid = sid := by simpa using List.find?_some hf
    split at h
    next he => exact ⟨r, hmem, hsid, Option.some.inj h, Or.inl he⟩
    next e he =>
      split at h
      next hlt => exact absurd h (by simp)
      next hlt => exact ⟨r, hmem, hsid, Option.some.inj h, Or.inr ⟨e, he, hlt⟩⟩

/-- Completeness of `KvUserDb.check_sid` when the token occurs at most
once: a stored, unexpired session with that token is found and its
owner returned. -/
theorem check_sid_complete (st : KvUserDbState) (now sid : String) (uid : Nat)
    (huniq : ∀ r₁ ∈ st.sessions, ∀ r₂ ∈ st.sessions,
      r₁.sid = sid → r₂.sid = sid → r₁ = r₂)
    (h : ∃ r ∈ st.sessions, r.sid = sid ∧ r.uid = uid ∧
      (r.expires = none ∨ ∃ e, r.expires = some e ∧ ¬ e < now)) :
    KvUserDb.check_sid st now sid = some uid := by
  obtain ⟨r, hmem, hsid, huid, hval⟩ := h
  unfold KvUserDb.check_sid
  cases hf : st.sessions.find? (fun r => r.sid == sid) with
  | none =>
    have hno := List.find?_eq_none.mp hf r hmem
    exact absurd (by simpa using hsid) hno
  | some r' =>
    have hmem' := List.mem_of_find?_eq_some hf
    have hsid' : r'.sid = sid := by simpa using List.find?_some hf
    have heq : r' = r := huniq r' hmem' r hmem hsid' hsid
    subst heq
    show (match r'.expires with
      | none => some r'.uid
      | some e => if e < now then none else some r'.uid) = some uid
    rcases hval with he | ⟨e, he, hlt⟩
    · rw [he]
      exact congrArg some huid
    · rw [he]
      show (if e < now then none else some r'.uid) = some uid
      rw [if_neg hlt]
      exact congrArg some huid

/-- Claim C4: `check_sid` returns the owning uid exactly when a session
with that token is stored and its expiry is absent or not
lexicographically below the current ISO timestamp; an expired session is
treated as absent; and a session minted by `login` with `ttl_seconds`
null or zero is valid at every later time.  Token uniqueness (tokens are
random draws) and freshness of the minted token are hypotheses. -/
theorem C4_check_session (st : KvUserDbState) (now sid : String) (uid : Nat)
    (huniq : ∀ r₁ ∈ st.sessions, ∀ r₂ ∈ st.sessions,
      r₁.sid = sid → r₂.sid = sid → r₁ = r₂) :
    (KvUserDb.check_sid st now sid = some uid ↔
      ∃ r ∈ st.sessions, r.sid = sid ∧ r.uid = uid ∧
        (r.expires = none ∨ ∃ e, r.expires = some e ∧ ¬ e < now))
    ∧ (∀ r ∈ st.sessions, r.sid = sid → ∀ e, r.expires = some e → e < now →
        KvUserDb.check_sid st now sid = none)
    ∧ (∀ (checkpw : String → String → Bool) (addSeconds : String → Int → String)
        (username pw newSid : String) (seconds : Option Int)
        (res : LoginResult) (st' : KvUserDbState),
        (seconds = none ∨ seconds = some 0) →
        (∀ r ∈ st.sessions, r.sid ≠ newSid) →
        KvUserDb.login checkpw addSeconds st username pw newSid now seconds = (some res, st') →
        ∀ later : String, KvUserDb.check_sid st' later res.sid = some res.uid) := by
  refine ⟨⟨check_sid_some_mem st now sid uid, check_sid_complete st now sid uid huniq⟩,
    ?_, ?_⟩
  · intro r hmem hsid e he hlt
    unfold KvUserDb.check_sid
    cases hf : st.sessions.find? (fun r => r.sid == sid) with
    | none => rfl
    | some r' =>
      have hmem' := List.mem_of_find?_eq_some hf
      have hsid' : r'.sid = sid := by simpa using List.find?_some hf
      have heq : r' = r := huniq r' hmem' r hmem hsid' hsid
      subst heq
      show (match r'.expires with
        | none => some r'.uid
        | some e => if e < now then none else some r'.uid) = none
      rw [he]
      show (if e < now then none else some r'.uid) = none
      rw [if_pos hlt]
  · intro checkpw addSeconds username pw newSid seconds res st' hzero hfresh hlogin later
    obtain ⟨u, hf, hc, hres, hst⟩ :=
      login_success_state checkpw addSeconds st username pw newSid now seconds res st' hlogin
    have hexp : expiresOf addSeconds now seconds = none := by
      rcases hzero with hz | hz <;> simp [hz, expiresOf]
    subst hst
    rw [hres]
    unfold KvUserDb.check_sid
    have hnewrow : ({ uid := u.id, sid := newSid, expires := expiresOf addSeconds now seconds }
        : SessionRow) = { uid := u.id, sid := newSid, expires := none } := by
      rw [hexp]
    have hvac : KvUserDb.vacuum_sessions now
        (st.sessions ++ [{ uid := u.id, sid := newSid,
                           expires := expiresOf addSeconds now seconds }])
        = KvUserDb.vacuum_sessions now st.sessions
          ++ [{ uid := u.id, sid := newSid, expires := none }] := by
      rw [hnewrow]
      unfold KvUserDb.vacuum_sessions
      rw [List.filter_append]
      rfl
    simp only [hvac]
    rw [List.find?_append]
    have hleft : (KvUserDb.vacuum_sessions now st.sessions).find?
        (fun r => r.sid == newSid) = none := by
      rw [List.find?_eq_none]
      intro r hr
      have hrmem : r ∈ st.sessions := by
        unfold KvUserDb.vacuum_sessions at hr
        exact (List.mem_filter.mp hr).1
      have := hfresh r hrmem
      simp only [beq_iff_eq]
      exact this
    rw [hleft, Option.none_or]
    simp [List.find?]

/-- Witness for C4 at a concrete store: a stored never-expiring session
is found by its token. -/
theorem C4_check_session_witness :
    KvUserDb.check_sid
      { users := [], permissions := [],
        sessions := [{ uid := 2, sid := "tok", expires := none }] } "T" "tok" = some 2 :=
  (C4_check_session
      { users := [], permissions := [],
        sessions := [{ uid := 2, sid := "tok", expires := none }] } "T" "tok" 2
      (by decide)).1.mpr
    ⟨{ uid := 2, sid := "tok", expires := none }, by decide, rfl, rfl, Or.inl rfl⟩

/-- Claim C6: `login` returns `None` — the identical value, with no
error raised — both when the username is absent and when the password
check fails, leaving the store untouched in both cases; when the user
exists and the password matches, a session record is returned.
Username uniqueness (the users table has UNIQUE(user)) is a
hypothesis. -/
theorem C6_login_failure_indistinguishable (checkpw : String → String → Bool)
    (addSeconds : String → Int → String) (st : KvUserDbState)
    (username pw sid now : String) (seconds : Option Int)
    (husers : ∀ u₁ ∈ st.users, ∀ u₂ ∈ st.users,
      u₁.user = username → u₂.user = username → u₁ = u₂) :
    ((∀ u ∈ st.users, u.user ≠ username) →
      KvUserDb.login checkpw addSeconds st username pw sid now seconds = (none, st))
    ∧ (∀ u ∈ st.users, u.user = username → checkpw pw u.passHash = false →
      KvUserDb.login checkpw addSeconds st username pw sid now seconds = (none, st))
    ∧ (∀ u ∈ st.users, u.user = username → checkpw pw u.passHash = true →
      (KvUserDb.login checkpw addSeconds st username pw sid now seconds).1.isSome = true) := by
  refine ⟨?_, ?_, ?_⟩
  · intro hno
    unfold KvUserDb.login
    have hf : st.users.find? (fun u => u.user == username) = none := by
      rw [List.find?_eq_none]
      intro u hu
      simpa using hno u hu
    rw [hf]
  · intro u hu hname hc
    unfold KvUserDb.login
    cases hf : st.users.find? (fun u => u.user == username) with
    | none => rfl
    | some u' =>
      have hu' := List.mem_of_find?_eq_some hf
      have hn' : u'.user = username := by simpa using List.find?_some hf
      have heq : u' = u := husers u' hu' u hu hn' hname
      subst heq
      simp [hc]
  · intro u hu hname hc
    unfold KvUserDb.login
    cases hf : st.users.find? (fun u => u.user == username) with
    | none =>
      have hnone := List.find?_eq_none.mp hf u hu
      exact absurd (by simpa using hname) hnone
    | some u' =>
      have hu' := List.mem_of_find?_eq_some hf
      have hn' : u'.user = username := by simpa using List.find?_some hf
      have heq : u' = u := husers u' hu' u hu hn' hname
      subst heq
      simp [hc]

/-- Witness for C6 at a concrete store: a wrong password yields exactly
`(none, unchanged store)`. -/
theorem C6_login_failure_indistinguishable_witness :
    KvUserDb.login (fun _ _ => false) (fun t _ => t)
      { users := [{ id := 1, user := "u", passHash := "h" }], permissions := [],
        sessions := [] } "u" "pw" "s" "T" none
      = (none, { users := [{ id := 1, user := "u", passHash := "h" }], permissions := [],
                 sessions := [] }) :=
  (C6_login_failure_indistinguishable (fun _ _ => false) (fun t _ => t)
      { users := [{ id := 1, user := "u", passHash := "h" }], permissions := [],
        sessions := [] } "u" "pw" "s" "T" none (by decide)).2.1
    { id := 1, user := "u", passHash := "h" } (by decide) rfl rfl

/-- Claim C7: after a successful login no stored session whose non-null
expiry is lexicographically below the sweep timestamp remains; every
session with a null or not-yet-passed expiry is kept; and the newly
minted session is stored.  The spec clock-monotonicity assumption (a
computed expiry is never below the current timestamp) is a
hypothesis. -/
theorem C7_login_sweep (checkpw : String → String → Bool)
    (addSeconds : String → Int → String) (st : KvUserDbState)
    (username pw sid now : String) (seconds : Option Int)
    (res : LoginResult) (st' : KvUserDbState)
    (hmono : ∀ s : Int, ¬ addSeconds now s < now)
    (hlogin : KvUserDb.login checkpw addSeconds st username pw sid now seconds
      = (some res, st')) :
    (∀ r ∈ st'.sessions, ∀ e, r.expires = some e → ¬ e < now)
    ∧ (∀ r ∈ st.sessions,
        (r.expires = none ∨ ∃ e, r.expires = some e ∧ ¬ e < now) → r ∈ st'.sessions)
    ∧ (∃ r ∈ st'.sessions, r.sid = res.sid ∧ r.uid = res.uid ∧ r.expires = res.expires) := by
  obtain ⟨u, hf, hc, hres, hst⟩ :=
    login_success_state checkpw addSeconds st username pw sid now seconds res st' hlogin
  subst hres
  subst hst
  refine ⟨?_, ?_, ?_⟩
  · intro r hr e he hlt
    have hr' : r ∈ List.filter (fun r => match r.expires with
        | none => true
        | some e => !(decide (e < now)))
        (st.sessions ++ [{ uid := u.id, sid := sid,
                           expires := expiresOf addSeconds now seconds }]) := hr
    have hq := (List.mem_filter.mp hr').2
    simp [he, hlt] at hq
  · intro r hr hval
    refine List.mem_filter.mpr ⟨List.mem_append_left _ hr, ?_⟩
    rcases hval with he | ⟨e, he, hnlt⟩
    · simp [he]
    · simp [he, hnlt]
  · refine ⟨{ uid := u.id, sid := sid, expires := expiresOf addSeconds now seconds },
      List.mem_filter.mpr ⟨List.mem_append_right _ (by simp), ?_⟩, rfl, rfl, rfl⟩
    cases hs : expiresOf addSeconds now seconds with
    | none => simp [hs]
    | some t =>
      cases seconds with
      | none => simp [expiresOf] at hs
      | some s =>
        by_cases hz : s = 0
        · simp [expiresOf, hz] at hs
        · simp only [expiresOf, if_neg hz] at hs
          have ht : t = addSeconds now s := (Option.some.inj hs).symm
          subst ht
          simp [hmono s]

/-- Witness for C7 at a concrete store: the freshly minted
never-expiring session is present after login. -/
theorem C7_login_sweep_witness :
    ∃ r ∈ ({ users := [{ id := 1, user := "u", passHash := "h" }], permissions := [],
             sessions := [{ uid := 1, sid := "s", expires := none }] }
        : KvUserDbState).sessions,
      r.sid = "s" ∧ r.uid = 1 ∧ r.expires = (none : Option String) :=
  (C7_login_sweep (fun _ _ => true) (fun t _ => t)
      { users := [{ id := 1, user := "u", passHash := "h" }], permissions := [],
        sessions := [] }
      "u" "pw" "s" "T" none
      { sid := "s", uid := 1, username := "u", duration := none, expires := none }
      { users := [{ id := 1, user := "u", passHash := "h" }], permissions := [],
        sessions := [{ uid := 1, sid := "s", expires := none }] }
      (fun _ => by show ¬ ("T" < "T"); exact lt_irrefl _) (by decide)).2.2

/-- Claim C8 (code bug in `admin.py` `_set_kv_perms`): the remove branch
that prints "Disabling read of table <dbid>" parameterizes its DELETE
with `[uid, mgr.ADMIN_PERM]`, so it deletes the `(uid, "admin")` grant
instead of `(uid, "<dbid>_read")`.  Evaluated at a user holding both
`orders_read` and `admin`: revoking read leaves `orders_read` stored and
removes `admin`.  The grant upsert and the write-revoke delete behave as
the claim states: granting `orders_write` then revoking it flips
`check_perm` from true to false and leaves `orders_read` untouched. -/
theorem C8_revoke_read_divergence :
    (Admin.disable_read
        [{ uid := 5, perm := "orders_read" }, { uid := 5, perm := "admin" }] 5 "orders"
      = [{ uid := 5, perm := "orders_read" }])
    ∧ (KvUserDb.check_perm
        (Admin.disable_read
          [{ uid := 5, perm := "orders_read" }, { uid := 5, perm := "admin" }] 5 "orders")
        5 "orders_read" = true)
    ∧ (KvUserDb.check_perm
        (Admin.disable_read
          [{ uid := 5, perm := "orders_read" }, { uid := 5, perm := "admin" }] 5 "orders")
        5 "admin" = false)
    ∧ (KvUserDb.check_perm
        (KvUserDb.register_kv_table_user [{ uid := 5, perm := "orders_read" }] "orders" 5
          false true) 5 "orders_write" = true)
    ∧ (KvUserDb.check_perm
        (Admin.disable_write
          (KvUserDb.register_kv_table_user [{ uid := 5, perm := "orders_read" }] "orders" 5
            false true) 5 "orders") 5 "orders_write" = false)
    ∧ (KvUserDb.check_perm
        (Admin.disable_write
          (KvUserDb.register_kv_table_user [{ uid := 5, perm := "orders_read" }] "orders" 5
            false true) 5 "orders") 5 "orders_read" = true) := by
  decide

/-- The body of `web._check_kv_perms` with the dict lookups flattened to
bare permission checks; proved by cases on the `perm_type` key. -/
theorem web_check_kv_perms_eq (st : KvUserDbState) (now dbid : String)
    (pt : PermType) (sid : Option String) :
    web_check_kv_perms st now dbid pt sid =
      (if KvUserDb.check_perm st.permissions GUEST_USER_ID (permName dbid pt) then true
       else match sid with
       | none => false
       | some s =>
         if s == "" then false
         else match KvUserDb.check_sid st now s with
           | none => false
           | some uidv =>
             if uidv == 0 then false
             else if KvUserDb.check_perm st.permissions uidv (permName dbid pt) then true
             else KvUserDb.check_perm st.permissions uidv ADMIN_PERM) := by
  cases pt <;> rfl

/-- Claim C10: the caller-layer gate grants exactly when the reserved
guest user holds the tenant permission (then every caller passes,
including one without a sid), or the supplied sid resolves through
`check_sid` to a user that holds the tenant permission or holds the
admin permission.  Store well-formedness — no stored session has an
empty token or uid 0, since tokens are nonempty random hex and user ids
start at 1 — is hypothesised. -/
theorem C10_caller_permission_gate (st : KvUserDbState) (now dbid : String)
    (pt : PermType) (sid : Option String)
    (hsid : ∀ r ∈ st.sessions, r.sid ≠ "")
    (huid : ∀ r ∈ st.sessions, r.uid ≠ 0) :
    web_check_kv_perms st now dbid pt sid = true ↔
      (KvUserDb.check_perm st.permissions GUEST_USER_ID (permName dbid pt) = true
        ∨ ∃ s uidv, sid = some s ∧ KvUserDb.check_sid st now s = some uidv ∧
            (KvUserDb.check_perm st.permissions uidv (permName dbid pt) = true
              ∨ KvUserDb.check_perm st.permissions uidv ADMIN_PERM = true)) := by
  rw [web_check_kv_perms_eq]
  by_cases hg : KvUserDb.check_perm st.permissions GUEST_USER_ID (permName dbid pt) = true
  · rw [if_pos hg]
    constructor
    · intro _
      exact Or.inl hg
    · intro _
      rfl
  · rw [if_neg hg]
    cases sid with
    | none =>
      show (false = true) ↔ _
      constructor
      · intro hfalse
        exact absurd hfalse (by decide)
      · rintro (hguest | ⟨s, uidv, hss, -, -⟩)
        · exact absurd hguest hg
        · exact absurd hss (by simp)
    | some s =>
      show (if s == "" then false
        else match KvUserDb.check_sid st now s with
          | none => false
          | some uidv =>
            if uidv == 0 then false
            else if KvUserDb.check_perm st.permissions uidv (permName dbid pt) then true
            else KvUserDb.check_perm st.permissions uidv ADMIN_PERM) = true ↔ _
      by_cases hse : s = ""
      · subst hse
        rw [if_pos (by decide)]
        constructor
        · intro hfalse
          exact absurd hfalse (by decide)
        · rintro (hguest | ⟨s2, uidv, hss, hcs, -⟩)
          · exact absurd hguest hg
          · have hs2 : s2 = "" := (Option.some.inj hss).symm
            subst hs2
            obtain ⟨r, hrmem, hrsid, -, -⟩ := check_sid_some_mem st now "" uidv hcs
            exact absurd hrsid (hsid r hrmem)
      · rw [if_neg (fun hc => hse (by simpa using hc))]
        cases hcs : KvUserDb.check_sid st now s with
        | none =>
          show (false = true) ↔ _
          constructor
          · intro hfalse
            exact absurd hfalse (by decide)
          · rintro (hguest | ⟨s2, uidv, hss, hcs2, -⟩)
            · exact absurd hguest hg
            · have hs2 : s2 = s := (Option.some.inj hss).symm
              subst hs2
              rw [hcs] at hcs2
              exact absurd hcs2 (by simp)
        | some uidv =>
          show (if uidv == 0 then false
            else if KvUserDb.check_perm st.permissions uidv (permName dbid pt) then true
            else KvUserDb.check_perm st.permissions uidv ADMIN_PERM) = true ↔ _
          have huidv0 : uidv ≠ 0 := by
            obtain ⟨r, hrmem, -, hruid, -⟩ := check_sid_some_mem st now s uidv hcs
            intro h0
            exact huid r hrmem (by rw [hruid, h0])
          rw [if_neg (fun hc => huidv0 (by simpa using hc))]
          constructor
          · intro hcode
            by_cases hp : KvUserDb.check_perm st.permissions uidv (permName dbid pt) = true
            · exact Or.inr ⟨s, uidv, rfl, hcs, Or.inl hp⟩
            · rw [if_neg hp] at hcode
              exact Or.inr ⟨s, uidv, rfl, hcs, Or.inr hcode⟩
          · rintro (hguest | ⟨s2, uidv2, hss, hcs2, hperm⟩)
            · exact absurd hguest hg
            · have hs2 : s2 = s := (Option.some.inj hss).symm
              subst hs2
              rw [hcs] at hcs2
              have huv : uidv2 = uidv := (Option.some.inj hcs2).symm
              subst huv
              rcases hperm with hp | hp
              · rw [if_pos hp]
              · by_cases hp2 : KvUserDb.check_perm st.permissions uidv2 (permName dbid pt) = true
                · rw [if_pos hp2]
                · rw [if_neg hp2]
                  exact hp

/-- Witness for C10 at a concrete store: a guest-readable tenant is
readable with no sid at all. -/
theorem C10_caller_permission_gate_witness :
    web_check_kv_perms
      { users := [], permissions := [{ uid := 1, perm := "t_read" }], sessions := [] }
      "N" "t" PermType.read none = true :=
  (C10_caller_permission_gate
      { users := [], permissions := [{ uid := 1, perm := "t_read" }], sessions := [] }
      "N" "t" PermType.read none (by decide) (by decide)).mpr
    (Or.inl (by decide))

end SimpleKv
